import Mathlib

/-!
Verification of the WebSocketService module (`src/services/websocket.service.ts`)
of the SIGHTA-AI mobile application.

The service is embedded as a pure state machine. The mutable fields of the
`WebSocketService` class become fields of `SvcState`; each method and each
transport event handler becomes a function `SvcState → ... → SvcState × outputs`.
Callbacks registered in the listener table are opaque, so the table is modelled
as a record of booleans (slot registered or not) and dispatch is recorded as a
list of `Invocation` values, one per `listener?.(...)` call the source makes.
`setTimeout` calls made by the `onclose` handler are modelled by appending the
computed delay to a `pendingTimers` list; the source stores no timer handle and
never calls `clearTimeout`, so no operation of the model removes a timer except
the timer firing itself.  Whether a transport write (`ws.send`) throws is an
environment choice, passed in as a boolean (or a per-message boolean function
for the queue flush loop); likewise whether `new WebSocket(url)` throws.
-/

namespace WS

/-- `ConnectionStatus` enum from `websocket.types.ts`. -/
inductive ConnectionStatus
  | DISCONNECTED
  | CONNECTING
  | CONNECTED
  | RECONNECTING
  | ERROR
  deriving DecidableEq, Repr

/-- Browser `WebSocket.readyState` values. -/
inductive ReadyState
  | CONNECTING
  | OPEN
  | CLOSING
  | CLOSED
  deriving DecidableEq, Repr

/-- The transport handle: all the service reads from it is `readyState`. -/
structure WsHandle where
  readyState : ReadyState
  deriving DecidableEq, Repr

/-- Opaque message payload.  `undef` is JavaScript `undefined` (a frame whose
envelope lacks a `payload` field); `obj data message` is any other value, with
`data` an opaque identity and `message` the value of its `.message` field when
read as an `ErrorMessage` (`none` when absent). -/
inductive Payload
  | undef
  | obj (data : Nat) (message : Option String)
  deriving DecidableEq, Repr

/-- The `WebSocketMessage` envelope `{ type, payload, timestamp, messageId? }`. -/
structure WebSocketMessage where
  type : String
  payload : Payload
  timestamp : Nat
  messageId : Option String
  deriving DecidableEq, Repr

/-- Which slots of the `WebSocketEventListeners` table currently hold a handler.
Handlers are opaque, so only registration matters for dispatch. -/
structure WebSocketEventListeners where
  onConnect : Bool
  onDisconnect : Bool
  onError : Bool
  onReconnect : Bool
  onMessage : Bool
  onGuidanceResponse : Bool
  deriving DecidableEq, Repr

/-- One recorded listener invocation, with the argument the source passes. -/
inductive Invocation
  | onConnect
  | onDisconnect (reason : String)
  | onError (message : String)
  | onReconnect (attempt : Nat)
  | onMessage (m : WebSocketMessage)
  | onGuidanceResponse (p : Payload)
  deriving DecidableEq, Repr

/-- An inbound wire frame as seen by the `onmessage` handler after
`JSON.parse`: `malformed` when parsing throws (non-string data or invalid
JSON); otherwise the destructured `type` field (absent or a string) and
`payload` field, plus whatever `timestamp`/`messageId` fields the frame
carried — the handler destructures only `type` and `payload`. -/
inductive WireFrame
  | malformed
  | frame (type : Option String) (payload : Payload)
      (wireTimestamp : Option Nat) (wireMessageId : Option String)
  deriving DecidableEq, Repr

/-- `WebSocketConfig` from `websocket.config.ts`. -/
def WebSocketConfig.reconnection : Bool := true

def WebSocketConfig.reconnectionAttempts : Nat := 5

def WebSocketConfig.reconnectionDelay : Nat := 1000

def WebSocketConfig.reconnectionDelayMax : Nat := 5000

/-- `MessageTypes.CONNECTION_ACK`. -/
def MessageTypes.CONNECTION_ACK : String := "connection_ack"

/-- `MessageTypes.GUIDANCE_RESPONSE`. -/
def MessageTypes.GUIDANCE_RESPONSE : String := "guidance_response"

/-- `MessageTypes.ERROR`. -/
def MessageTypes.ERROR : String := "error"

/-- The mutable fields of the `WebSocketService` class, plus `pendingTimers`:
the delays of reconnect `setTimeout` callbacks armed but not yet fired, in
arming order.  The source never stores a timer handle and never calls
`clearTimeout`, so only a timer firing removes an entry. -/
structure SvcState where
  ws : Option WsHandle
  connectionStatus : ConnectionStatus
  reconnectAttempts : Nat
  eventListeners : WebSocketEventListeners
  messageQueue : List WebSocketMessage
  isAuthenticated : Bool
  pendingTimers : List Nat
  deriving DecidableEq, Repr

/-- `isConnected()`: status is `CONNECTED` and `this.ws?.readyState === WebSocket.OPEN`. -/
def isConnected (st : SvcState) : Bool :=
  decide (st.connectionStatus = ConnectionStatus.CONNECTED) &&
    (match st.ws with
     | some h => decide (h.readyState = ReadyState.OPEN)
     | none => false)

/-- `getConnectionStatus()`. -/
def getConnectionStatus (st : SvcState) : ConnectionStatus :=
  st.connectionStatus

/-- `getAuthenticationStatus()`. -/
def getAuthenticationStatus (st : SvcState) : Bool :=
  st.isAuthenticated

/-- `getQueuedMessageCount()`. -/
def getQueuedMessageCount (st : SvcState) : Nat :=
  st.messageQueue.length

/-- `clearMessageQueue()`: `this.messageQueue = []`. -/
def clearMessageQueue (st : SvcState) : SvcState :=
  { st with messageQueue := [] }

/-- `generateMessageId()`: `Date.now()` and the random suffix are inputs. -/
def generateMessageId (now : Nat) (rand : String) : String :=
  toString now ++ "-" ++ rand

/-- The body of `connect` past the early-return guard: set status to
`CONNECTING`, then try `new WebSocket(url)`.  `ctorOk` says whether the
constructor succeeds; a fresh socket starts in readyState `CONNECTING`.
On a constructor throw the `this.ws` assignment does not happen, status
becomes `ERROR` and the `onError` listener is invoked. -/
def connectProceed (st : SvcState) (ctorOk : Bool) : SvcState × List Invocation :=
  let st1 := { st with connectionStatus := ConnectionStatus.CONNECTING }
  if ctorOk then
    ({ st1 with ws := some ⟨ReadyState.CONNECTING⟩ }, [])
  else
    ({ st1 with connectionStatus := ConnectionStatus.ERROR },
     if st1.eventListeners.onError then [Invocation.onError "WebSocket initialization error"] else [])

/-- `connect(serverUrl?)`: no-op when a transport exists in readyState
`OPEN` or `CONNECTING`; otherwise proceeds.  The `url` argument only selects
the endpoint and does not affect the service state. -/
def connect (st : SvcState) (serverUrl : Option String) (ctorOk : Bool) :
    SvcState × List Invocation :=
  match st.ws with
  | some h =>
    if h.readyState = ReadyState.OPEN ∨ h.readyState = ReadyState.CONNECTING then
      (st, [])
    else connectProceed st ctorOk
  | none => connectProceed st ctorOk

/-- `disconnect()`: when a transport handle exists, close it, discard the
handle, set status `DISCONNECTED`, clear the auth flag.  No-op otherwise.
The source contains no `clearTimeout`, so `pendingTimers` is untouched. -/
def disconnect (st : SvcState) : SvcState :=
  match st.ws with
  | some _ =>
    { st with ws := none
              connectionStatus := ConnectionStatus.DISCONNECTED
              isAuthenticated := false }
  | none => st

/-- The browser mutating the current transport's `readyState` before firing
an event on it. -/
def wsSetReadyState (st : SvcState) (r : ReadyState) : SvcState :=
  { st with ws := st.ws.map (fun _ => ⟨r⟩) }

/-- The `while (this.messageQueue.length > 0)` loop of
`processMessageQueue`: shift the head, try `ws.send`; a throwing send is
logged and the message dropped.  Returns the successful writes in order. -/
def drainLoop (sendOk : WebSocketMessage → Bool) :
    List WebSocketMessage → List WebSocketMessage
  | [] => []
  | m :: rest =>
    if sendOk m then m :: drainLoop sendOk rest else drainLoop sendOk rest

/-- `processMessageQueue()`: early return unless `isConnected()` and
`this.ws`; otherwise drain the whole queue through `drainLoop`. -/
def processMessageQueue (st : SvcState) (sendOk : WebSocketMessage → Bool) :
    SvcState × List WebSocketMessage :=
  if isConnected st && st.ws.isSome then
    ({ st with messageQueue := [] }, drainLoop sendOk st.messageQueue)
  else (st, [])

/-- The `ws.onopen` handler body: status `CONNECTED`, reset the attempt
counter, invoke `onConnect`, then flush the queue. -/
def onOpenHandler (st : SvcState) (sendOk : WebSocketMessage → Bool) :
    SvcState × List Invocation × List WebSocketMessage :=
  let st1 := { st with connectionStatus := ConnectionStatus.CONNECTED
                       reconnectAttempts := 0 }
  let inv := if st1.eventListeners.onConnect then [Invocation.onConnect] else []
  let r := processMessageQueue st1 sendOk
  (r.1, inv, r.2)

/-- A transport open event on the current handle: the browser sets
`readyState` to `OPEN`, then the installed `onopen` handler runs. -/
def openEvent (st : SvcState) (sendOk : WebSocketMessage → Bool) :
    SvcState × List Invocation × List WebSocketMessage :=
  onOpenHandler (wsSetReadyState st ReadyState.OPEN) sendOk

/-- The backoff delay armed by the `onclose` handler:
`Math.min(reconnectionDelay * attemptNumber, reconnectionDelayMax)`. -/
def reconnectDelay (attemptNumber : Nat) : Nat :=
  min (WebSocketConfig.reconnectionDelay * attemptNumber) WebSocketConfig.reconnectionDelayMax

/-- The `ws.onclose` handler body: status `DISCONNECTED`, clear the auth
flag, invoke `onDisconnect` with `event.reason || 'closed'`; then, if
reconnection is enabled and the attempt counter is below the configured
maximum, increment it, go `RECONNECTING` and arm a `setTimeout` with the
backoff delay. -/
def onCloseHandler (st : SvcState) (reason : String) : SvcState × List Invocation :=
  let st1 := { st with connectionStatus := ConnectionStatus.DISCONNECTED
                       isAuthenticated := false }
  let inv := if st1.eventListeners.onDisconnect then
      [Invocation.onDisconnect (if reason = "" then "closed" else reason)]
    else []
  if WebSocketConfig.reconnection &&
      decide (st1.reconnectAttempts < WebSocketConfig.reconnectionAttempts) then
    let attempts := st1.reconnectAttempts + 1
    ({ st1 with reconnectAttempts := attempts
                connectionStatus := ConnectionStatus.RECONNECTING
                pendingTimers := st1.pendingTimers ++ [reconnectDelay attempts] },
     inv)
  else (st1, inv)

/-- A transport close event on the current handle: the browser sets
`readyState` to `CLOSED`, then the installed `onclose` handler runs. -/
def closeEvent (st : SvcState) (reason : String) : SvcState × List Invocation :=
  onCloseHandler (wsSetReadyState st ReadyState.CLOSED) reason

/-- Expiry of the oldest armed reconnect `setTimeout` callback:
`this.eventListeners.onReconnect?.(this.reconnectAttempts)` then
`this.connect()`.  No-op when no timer is pending. -/
def timerFire (st : SvcState) (ctorOk : Bool) : SvcState × List Invocation :=
  match st.pendingTimers with
  | [] => (st, [])
  | _ :: rest =>
    let st1 := { st with pendingTimers := rest }
    let inv := if st1.eventListeners.onReconnect then
        [Invocation.onReconnect st1.reconnectAttempts]
      else []
    let r := connect st1 none ctorOk
    (r.1, inv ++ r.2)

/-- The message the `error` branch of `onmessage` builds:
`new Error(err?.message || 'Server error')`. -/
def errText (p : Payload) : String :=
  match p with
  | Payload.undef => "Server error"
  | Payload.obj _ none => "Server error"
  | Payload.obj _ (some m) => if m = "" then "Server error" else m

/-- The `ws.onmessage` handler body.  A parse throw is swallowed; a falsy
`type` (absent or empty) returns before any dispatch; `connection_ack` sets
the auth flag; `guidance_response` and `error` go to their dedicated slots;
every surviving frame is then re-wrapped as `{ type, payload, timestamp:
Date.now() }` (no `messageId`) and dispatched to `onMessage`. -/
def onMessageEvent (st : SvcState) (fr : WireFrame) (now : Nat) :
    SvcState × List Invocation :=
  match fr with
  | WireFrame.malformed => (st, [])
  | WireFrame.frame ty p _ _ =>
    match ty with
    | none => (st, [])
    | some t =>
      if t = "" then (st, [])
      else
        let (st1, inv1) :=
          if t = MessageTypes.CONNECTION_ACK then
            ({ st with isAuthenticated := true }, [])
          else if t = MessageTypes.GUIDANCE_RESPONSE then
            (st, if st.eventListeners.onGuidanceResponse then [Invocation.onGuidanceResponse p] else [])
          else if t = MessageTypes.ERROR then
            (st, if st.eventListeners.onError then [Invocation.onError (errText p)] else [])
          else (st, [])
        let msg : WebSocketMessage :=
          { type := t, payload := p, timestamp := now, messageId := none }
        (st1, inv1 ++ (if st1.eventListeners.onMessage then [Invocation.onMessage msg] else []))

/-- `sendMessage(type, payload)`: build the envelope with a fresh id and the
current time; if `isConnected()` and `this.ws`, try the write — on a throw
the envelope is queued; otherwise queue it directly.  Returns the
transport writes performed (at most one). -/
def sendMessage (st : SvcState) (ty : String) (p : Payload) (now : Nat)
    (rand : String) (sendOk : Bool) : SvcState × List WebSocketMessage :=
  let message : WebSocketMessage :=
    { type := ty, payload := p, timestamp := now
      messageId := some (generateMessageId now rand) }
  if isConnected st && st.ws.isSome then
    if sendOk then (st, [message])
    else ({ st with messageQueue := st.messageQueue ++ [message] }, [])
  else
    ({ st with messageQueue := st.messageQueue ++ [message] }, [])

/-- Repeated `sendMessage` calls: one `(type, payload, now, rand)` tuple per
call; the write outcome is irrelevant while disconnected. -/
def sendMany (st : SvcState) (items : List (String × Payload × Nat × String)) : SvcState :=
  items.foldl
    (fun s it => (sendMessage s it.1 it.2.1 it.2.2.1 it.2.2.2 false).1) st

/-- All listener slots registered. -/
def allListeners : WebSocketEventListeners :=
  { onConnect := true, onDisconnect := true, onError := true
    onReconnect := true, onMessage := true, onGuidanceResponse := true }

/-- A freshly connected service: open transport, `CONNECTED`, attempt
counter 0, empty queue, no pending timers, every listener registered. -/
def st0 : SvcState :=
  { ws := some ⟨ReadyState.OPEN⟩
    connectionStatus := ConnectionStatus.CONNECTED
    reconnectAttempts := 0
    eventListeners := allListeners
    messageQueue := []
    isAuthenticated := true
    pendingTimers := [] }

/-- One round of the reconnect cycle: a transport close event followed by
the expiry of the timer it armed (the next connection attempt also fails to
stay up, so the next round closes again). -/
def closeThenFire (st : SvcState) : SvcState × List Invocation :=
  let r1 := closeEvent st ""
  let r2 := timerFire r1.1 true
  (r2.1, r1.2 ++ r2.2)

/-- `n` consecutive close/retry rounds, collecting every listener invocation. -/
def runCloses : Nat → SvcState → SvcState × List Invocation
  | 0, st => (st, [])
  | n + 1, st =>
    let r1 := closeThenFire st
    let r2 := runCloses n r1.1
    (r2.1, r1.2 ++ r2.2)

/-- Recognizer for `onReconnect` invocations. -/
def isOnReconnectInv : Invocation → Bool
  | Invocation.onReconnect _ => true
  | _ => false

/-- Recognizer for `onMessage` invocations. -/
def isOnMessageInv : Invocation → Bool
  | Invocation.onMessage _ => true
  | _ => false

/-- Reachable state used against C1: a close event on the fresh connection
arms one reconnect timer. -/
def cex1 : SvcState := (closeEvent st0 "").1

/-- ... then the caller manually disconnects. -/
def cex2 : SvcState := disconnect cex1

/-- ... then the caller immediately reconnects. -/
def cex3 : SvcState := (connect cex2 none true).1

/-- ... and the new transport closes while the orphan timer is still pending. -/
def cex4 : SvcState := (closeEvent cex3 "").1

/-- A disconnected service with two listeners registered and an empty queue. -/
def stD : SvcState :=
  { ws := none
    connectionStatus := ConnectionStatus.DISCONNECTED
    reconnectAttempts := 0
    eventListeners := allListeners
    messageQueue := []
    isAuthenticated := false
    pendingTimers := [] }

/-- A connected service holding two queued messages. -/
def stQ : SvcState :=
  { st0 with messageQueue :=
      [{ type := "x", payload := Payload.obj 1 none, timestamp := 5, messageId := some "id1" },
       { type := "y", payload := Payload.undef, timestamp := 6, messageId := some "id2" }] }

/-- Two concrete send requests. -/
def itemsW : List (String × Payload × Nat × String) :=
  [("a", Payload.obj 1 none, 10, "r1"), ("b", Payload.undef, 11, "r2")]

/-! ## Helper lemmas -/

lemma drainLoop_eq_filter (sendOk : WebSocketMessage → Bool) (l : List WebSocketMessage) :
    drainLoop sendOk l = l.filter sendOk := by
  induction l with
  | nil => rfl
  | cons m rest ih => cases h : sendOk m <;> simp [drainLoop, List.filter_cons, h, ih]

lemma sendMessage_absorbs (st : SvcState) (ty : String) (p : Payload) (now : Nat)
    (rand : String) (sendOk : Bool) (h : isConnected st = false ∨ sendOk = false) :
    sendMessage st ty p now rand sendOk
      = ({ st with messageQueue := st.messageQueue ++
             [{ type := ty, payload := p, timestamp := now
                messageId := some (generateMessageId now rand) }] }, []) := by
  unfold sendMessage
  rcases h with h | h
  · rw [h]
    rfl
  · subst h
    by_cases hc : (isConnected st && st.ws.isSome) = true
    · rw [if_pos hc]
      rfl
    · rw [if_neg hc]

lemma isConnected_set_queue (st : SvcState) (q : List WebSocketMessage) :
    isConnected { st with messageQueue := q } = isConnected st := rfl

lemma sendMany_queue_length (items : List (String × Payload × Nat × String)) :
    ∀ st : SvcState, isConnected st = false →
      (sendMany st items).messageQueue.length = st.messageQueue.length + items.length := by
  induction items with
  | nil => intro st _; rfl
  | cons it rest ih =>
    intro st h
    have hstep : sendMany st (it :: rest)
        = sendMany (sendMessage st it.1 it.2.1 it.2.2.1 it.2.2.2 false).1 rest := rfl
    rw [hstep, sendMessage_absorbs st it.1 it.2.1 it.2.2.1 it.2.2.2 false (Or.inr rfl)]
    rw [ih _ (by rw [isConnected_set_queue]; exact h)]
    simp
    omega

lemma connectProceed_reconnectAttempts (st : SvcState) (ctorOk : Bool) :
    (connectProceed st ctorOk).1.reconnectAttempts = st.reconnectAttempts := by
  unfold connectProceed
  cases ctorOk <;> rfl

lemma connect_reconnectAttempts (st : SvcState) (url : Option String) (ctorOk : Bool) :
    (connect st url ctorOk).1.reconnectAttempts = st.reconnectAttempts := by
  unfold connect
  cases hws : st.ws with
  | none => exact connectProceed_reconnectAttempts st ctorOk
  | some h =>
    dsimp only
    by_cases hr : h.readyState = ReadyState.OPEN ∨ h.readyState = ReadyState.CONNECTING
    · rw [if_pos hr]
    · rw [if_neg hr]
      exact connectProceed_reconnectAttempts st ctorOk

lemma timerFire_reconnectAttempts (st : SvcState) (ctorOk : Bool) :
    (timerFire st ctorOk).1.reconnectAttempts = st.reconnectAttempts := by
  unfold timerFire
  cases ht : st.pendingTimers with
  | nil => rfl
  | cons d rest =>
    exact connect_reconnectAttempts { st with pendingTimers := rest } none ctorOk

lemma onCloseHandler_reconnectAttempts_le (st : SvcState) (reason : String)
    (h : st.reconnectAttempts ≤ WebSocketConfig.reconnectionAttempts) :
    (onCloseHandler st reason).1.reconnectAttempts ≤ WebSocketConfig.reconnectionAttempts := by
  unfold onCloseHandler
  dsimp only
  split
  · next hc =>
    have := of_decide_eq_true (Bool.and_elim_right hc)
    show st.reconnectAttempts + 1 ≤ WebSocketConfig.reconnectionAttempts
    omega
  · exact h

lemma closeThenFire_reconnectAttempts_le (st : SvcState)
    (h : st.reconnectAttempts ≤ WebSocketConfig.reconnectionAttempts) :
    (closeThenFire st).1.reconnectAttempts ≤ WebSocketConfig.reconnectionAttempts := by
  unfold closeThenFire
  dsimp only
  rw [timerFire_reconnectAttempts]
  exact onCloseHandler_reconnectAttempts_le (wsSetReadyState st ReadyState.CLOSED) "" h

lemma runCloses_reconnectAttempts_le (n : Nat) (st : SvcState)
    (h : st.reconnectAttempts ≤ WebSocketConfig.reconnectionAttempts) :
    (runCloses n st).1.reconnectAttempts ≤ WebSocketConfig.reconnectionAttempts := by
  induction n generalizing st with
  | zero => exact h
  | succ n ih => exact ih (closeThenFire st).1 (closeThenFire_reconnectAttempts_le st h)

/-! ## Claims -/

/-- C2: for every reconnect attempt number `n ≥ 1`, the backoff delay armed by
the `onclose` handler equals `min(baseDelay * n, maxDelay)`; the delay sequence
is monotonically non-decreasing, never exceeds the cap, and with base 1000 ms
and cap 5000 ms attempts 1..5 get delays 1000, 2000, 3000, 4000, 5000 ms. -/
theorem C2_backoff_linear_capped (n k : Nat) :
    reconnectDelay (n + 1)
        = min (WebSocketConfig.reconnectionDelay * (n + 1)) WebSocketConfig.reconnectionDelayMax ∧
    reconnectDelay (n + 1) ≤ reconnectDelay (n + 1 + k) ∧
    reconnectDelay (n + 1) ≤ WebSocketConfig.reconnectionDelayMax ∧
    [reconnectDelay 1, reconnectDelay 2, reconnectDelay 3, reconnectDelay 4, reconnectDelay 5]
        = [1000, 2000, 3000, 4000, 5000] := by
  refine ⟨rfl, ?_, Nat.min_le_right _ _, by decide⟩
  unfold reconnectDelay WebSocketConfig.reconnectionDelay WebSocketConfig.reconnectionDelayMax
  omega

/-- C6: `connect()` is idempotent while a transport handle exists in
`CONNECTING` or `OPEN` readiness: the call (with any address) returns the
state unchanged — no new transport, and status, queue, counter and listeners
untouched — and invokes no listener. -/
theorem C6_connect_idempotent (st : SvcState) (h : WsHandle) (url : Option String)
    (ctorOk : Bool) (hw : st.ws = some h)
    (hr : h.readyState = ReadyState.OPEN ∨ h.readyState = ReadyState.CONNECTING) :
    connect st url ctorOk = (st, []) := by
  unfold connect
  rw [hw]
  exact if_pos hr

theorem C6_witness :
    st0.ws = some ⟨ReadyState.OPEN⟩ ∧ connect st0 (some "ws://example") true = (st0, []) :=
  ⟨rfl, C6_connect_idempotent st0 ⟨ReadyState.OPEN⟩ (some "ws://example") true rfl (Or.inl rfl)⟩

/-- C1 is false of the code: `disconnect()` stores no timer handle and never
calls `clearTimeout`, so in the reachable state `cex2` (close event arms a
timer, then manual `disconnect()`) the timer is still pending; when it expires
it invokes `onReconnect` and opens a fresh transport — an automatic
reconnection attempt after a manual disconnect; and after `disconnect()`
followed immediately by `connect()`, the close of the new transport leaves two
simultaneous pending reconnect timers. -/
theorem C1_counterexample :
    disconnect cex1 = cex2 ∧
    cex2.pendingTimers = [1000] ∧
    (timerFire cex2 true).2 = [Invocation.onReconnect 1] ∧
    (timerFire cex2 true).1.ws = some ⟨ReadyState.CONNECTING⟩ ∧
    connect cex2 none true = (cex3, []) ∧
    cex4.pendingTimers = [1000, 2000] := by
  decide

/-- C1 amended: `disconnect()` leaves `pendingTimers` exactly as they were
(for every state), so a reconnect timer armed before a manual `disconnect()`
still fires, invokes `onReconnect` and opens a new transport, and
`disconnect()` followed immediately by `connect()` can leave two simultaneous
pending reconnect timers once the new transport closes. -/
theorem C1_amended_no_cancellation (st : SvcState) :
    (disconnect st).pendingTimers = st.pendingTimers ∧
    cex2.pendingTimers = [1000] ∧
    (timerFire cex2 true).2 = [Invocation.onReconnect 1] ∧
    (timerFire cex2 true).1.ws = some ⟨ReadyState.CONNECTING⟩ ∧
    cex4.pendingTimers = [1000, 2000] := by
  refine ⟨?_, by decide, by decide, by decide, by decide⟩
  obtain ⟨ws, c, ra, el, q, a, t⟩ := st
  cases ws <;> rfl

/-- C3: a transport open event on the current handle drains the Outbound
Queue to size 0, and the entries written to the transport are exactly the
queued ones in original insertion (FIFO) order, minus those whose write
throws, which are dropped rather than re-queued. -/
theorem C3_open_event_flushes_fifo (st : SvcState) (h : WsHandle)
    (sendOk : WebSocketMessage → Bool) (hws : st.ws = some h) :
    (openEvent st sendOk).1.messageQueue = [] ∧
    (openEvent st sendOk).2.2 = st.messageQueue.filter sendOk := by
  obtain ⟨ws, c, ra, el, q, a, t⟩ := st
  rw [show SvcState.ws ⟨ws, c, ra, el, q, a, t⟩ = ws from rfl] at hws
  subst hws
  exact ⟨rfl, drainLoop_eq_filter sendOk q⟩

theorem C3_witness :
    stQ.ws = some ⟨ReadyState.OPEN⟩ ∧
    (openEvent stQ (fun m => m.type ≠ "y")).1.messageQueue = [] ∧
    (openEvent stQ (fun m => m.type ≠ "y")).2.2
        = stQ.messageQueue.filter (fun m => m.type ≠ "y") :=
  ⟨rfl, C3_open_event_flushes_fifo stQ ⟨ReadyState.OPEN⟩ (fun m => m.type ≠ "y") rfl⟩

/-- C4: `sendMessage` never raises: whenever the state is not connected, or
the transport write throws, the constructed envelope is appended to the
Outbound Queue and nothing is written; N sends while disconnected grow the
queue by exactly N; `clearMessageQueue` resets its size to 0. -/
theorem C4_send_never_raises (st st2 : SvcState) (ty : String) (p : Payload)
    (now : Nat) (rand : String) (sendOk : Bool)
    (items : List (String × Payload × Nat × String))
    (h2 : isConnected st2 = false ∨ sendOk = false)
    (h : isConnected st = false) :
    (sendMessage st2 ty p now rand sendOk).1.messageQueue
        = st2.messageQueue ++
          [{ type := ty, payload := p, timestamp := now
             messageId := some (generateMessageId now rand) }] ∧
    (sendMessage st2 ty p now rand sendOk).2 = [] ∧
    (sendMany st items).messageQueue.length = st.messageQueue.length + items.length ∧
    (clearMessageQueue (sendMany st items)).messageQueue.length = 0 := by
  refine ⟨?_, ?_, sendMany_queue_length items st h, rfl⟩
  · rw [sendMessage_absorbs st2 ty p now rand sendOk h2]
  · rw [sendMessage_absorbs st2 ty p now rand sendOk h2]

theorem C4_witness :
    (isConnected stD = false ∨ (false : Bool) = false) ∧ isConnected stD = false ∧
    ((sendMessage stD "a" Payload.undef 7 "r" false).1.messageQueue
        = stD.messageQueue ++
          [{ type := "a", payload := Payload.undef, timestamp := 7
             messageId := some (generateMessageId 7 "r") }] ∧
     (sendMessage stD "a" Payload.undef 7 "r" false).2 = [] ∧
     (sendMany stD itemsW).messageQueue.length = stD.messageQueue.length + itemsW.length ∧
     (clearMessageQueue (sendMany stD itemsW)).messageQueue.length = 0) :=
  ⟨Or.inl (by decide), by decide,
   C4_send_never_raises stD stD "a" Payload.undef 7 "r" false itemsW
     (Or.inl (by decide)) (by decide)⟩

/-- C5: from a fresh connection with reconnection enabled and max attempts 5,
five consecutive close events (no successful open in between) produce exactly
the five `onReconnect` invocations 1..5; a sixth round schedules nothing (no
new `onReconnect`, no pending timer), and the attempt counter never exceeds
the configured maximum. -/
theorem C5_reconnect_attempts_capped :
    ((runCloses 5 st0).2.filter isOnReconnectInv)
        = [Invocation.onReconnect 1, Invocation.onReconnect 2, Invocation.onReconnect 3,
           Invocation.onReconnect 4, Invocation.onReconnect 5] ∧
    (runCloses 5 st0).1.reconnectAttempts = 5 ∧
    ((runCloses 6 st0).2.filter isOnReconnectInv)
        = [Invocation.onReconnect 1, Invocation.onReconnect 2, Invocation.onReconnect 3,
           Invocation.onReconnect 4, Invocation.onReconnect 5] ∧
    (runCloses 6 st0).1.pendingTimers = [] ∧
    ∀ n, (runCloses n st0).1.reconnectAttempts ≤ WebSocketConfig.reconnectionAttempts :=
  ⟨by decide, by decide, by decide, by decide,
   fun n => runCloses_reconnectAttempts_le n st0 (by decide)⟩

/-- C7: an inbound frame that is unparseable, or whose decoded envelope has
no `type` field or an empty one, invokes no listener slot and leaves the
whole service state (connection status, auth flag, queue) unchanged. -/
theorem C7_noise_silently_discarded (st : SvcState) (now : Nat)
    (fr : WireFrame) (p : Payload) (wts : Option Nat) (wmid : Option String)
    (h : fr = WireFrame.malformed ∨ fr = WireFrame.frame none p wts wmid
        ∨ fr = WireFrame.frame (some "") p wts wmid) :
    onMessageEvent st fr now = (st, []) := by
  rcases h with h | h | h <;> subst h <;> rfl

theorem C7_witness :
    (WireFrame.frame (some "") Payload.undef (some 3) (some "m")
        = WireFrame.malformed ∨
     WireFrame.frame (some "") Payload.undef (some 3) (some "m")
        = WireFrame.frame none Payload.undef (some 3) (some "m") ∨
     WireFrame.frame (some "") Payload.undef (some 3) (some "m")
        = WireFrame.frame (some "") Payload.undef (some 3) (some "m")) ∧
    onMessageEvent st0 (WireFrame.frame (some "") Payload.undef (some 3) (some "m")) 8
        = (st0, []) :=
  ⟨Or.inr (Or.inr rfl),
   C7_noise_silently_discarded st0 8
     (WireFrame.frame (some "") Payload.undef (some 3) (some "m"))
     Payload.undef (some 3) (some "m") (Or.inr (Or.inr rfl))⟩

/-- C8: a well-formed `connection_ack` frame sets the authentication flag;
a subsequent `disconnect()` resets it to false, as does any transport close
event; `getAuthenticationStatus()` reports exactly the flag. -/
theorem C8_connection_ack_auth (st st2 st3 : SvcState) (p : Payload) (now : Nat)
    (wts : Option Nat) (wmid : Option String) (h : WsHandle) (r : String)
    (hws : st.ws = some h) :
    (onMessageEvent st (WireFrame.frame (some "connection_ack") p wts wmid) now).1.isAuthenticated
        = true ∧
    (disconnect (onMessageEvent st (WireFrame.frame (some "connection_ack") p wts wmid) now).1).isAuthenticated
        = false ∧
    (onCloseHandler st2 r).1.isAuthenticated = false ∧
    getAuthenticationStatus st3 = st3.isAuthenticated := by
  obtain ⟨ws, c, ra, el, q, a, t⟩ := st
  rw [show SvcState.ws ⟨ws, c, ra, el, q, a, t⟩ = ws from rfl] at hws
  subst hws
  refine ⟨rfl, rfl, ?_, rfl⟩
  unfold onCloseHandler
  dsimp only
  split
  · rfl
  · rfl

theorem C8_witness :
    st0.ws = some ⟨ReadyState.OPEN⟩ ∧
    ((onMessageEvent st0 (WireFrame.frame (some "connection_ack") Payload.undef none none) 4).1.isAuthenticated
        = true ∧
     (disconnect (onMessageEvent st0 (WireFrame.frame (some "connection_ack") Payload.undef none none) 4).1).isAuthenticated
        = false ∧
     (onCloseHandler stD "bye").1.isAuthenticated = false ∧
     getAuthenticationStatus stD = stD.isAuthenticated) :=
  ⟨rfl, C8_connection_ack_auth st0 stD stD Payload.undef 4 none none
          ⟨ReadyState.OPEN⟩ "bye" rfl⟩

/-- C9: a well-formed `guidance_response` frame, with the dedicated handler
and the generic handler registered, invokes `onGuidanceResponse` exactly once
with the decoded payload and `onMessage` exactly once with the same
envelope — and nothing else. -/
theorem C9_guidance_response_dispatch (st : SvcState) (p : Payload) (now : Nat)
    (wts : Option Nat) (wmid : Option String)
    (hg : st.eventListeners.onGuidanceResponse = true)
    (hm : st.eventListeners.onMessage = true) :
    (onMessageEvent st (WireFrame.frame (some "guidance_response") p wts wmid) now).2
      = [Invocation.onGuidanceResponse p,
         Invocation.onMessage
           { type := "guidance_response", payload := p, timestamp := now
             messageId := none }] := by
  have e : (onMessageEvent st (WireFrame.frame (some "guidance_response") p wts wmid) now).2
      = (if st.eventListeners.onGuidanceResponse then [Invocation.onGuidanceResponse p] else [])
        ++ (if st.eventListeners.onMessage then
              [Invocation.onMessage
                { type := "guidance_response", payload := p, timestamp := now
                  messageId := none }]
            else []) := rfl
  rw [e, hg, hm]
  rfl

theorem C9_witness :
    st0.eventListeners.onGuidanceResponse = true ∧
    st0.eventListeners.onMessage = true ∧
    (onMessageEvent st0
        (WireFrame.frame (some "guidance_response") (Payload.obj 2 none) (some 1) (some "w")) 9).2
      = [Invocation.onGuidanceResponse (Payload.obj 2 none),
         Invocation.onMessage
           { type := "guidance_response", payload := Payload.obj 2 none, timestamp := 9
             messageId := none }] :=
  ⟨rfl, rfl,
   C9_guidance_response_dispatch st0 (Payload.obj 2 none) 9 (some 1) (some "w") rfl rfl⟩

/-- C10: every well-formed inbound frame with a non-empty type — reserved
types included — causes exactly one `onMessage` invocation (when that slot is
registered), carrying an envelope with the decoded type and payload, a
timestamp assigned at receive time, and no `messageId`, regardless of the
timestamp or `messageId` the wire frame carried. -/
theorem C10_generic_dispatch_exactly_once (st : SvcState) (ty : String) (p : Payload)
    (now : Nat) (wts : Option Nat) (wmid : Option String)
    (hty : ty ≠ "") (hm : st.eventListeners.onMessage = true) :
    ((onMessageEvent st (WireFrame.frame (some ty) p wts wmid) now).2.filter isOnMessageInv)
      = [Invocation.onMessage
           { type := ty, payload := p, timestamp := now, messageId := none }] := by
  unfold onMessageEvent
  dsimp only
  rw [if_neg hty]
  by_cases h1 : ty = MessageTypes.CONNECTION_ACK
  · rw [if_pos h1]
    dsimp only
    rw [hm]
    rfl
  · rw [if_neg h1]
    by_cases h2 : ty = MessageTypes.GUIDANCE_RESPONSE
    · rw [if_pos h2]
      dsimp only
      rw [hm]
      cases hg : st.eventListeners.onGuidanceResponse <;> rfl
    · rw [if_neg h2]
      by_cases h3 : ty = MessageTypes.ERROR
      · rw [if_pos h3]
        dsimp only
        rw [hm]
        cases he : st.eventListeners.onError <;> rfl
      · rw [if_neg h3]
        dsimp only
        rw [hm]
        rfl

theorem C10_witness :
    ("connection_ack" : String) ≠ "" ∧
    st0.eventListeners.onMessage = true ∧
    ((onMessageEvent st0
        (WireFrame.frame (some "connection_ack") (Payload.obj 3 (some "x")) (some 99) (some "wid")) 12).2.filter
          isOnMessageInv)
      = [Invocation.onMessage
           { type := "connection_ack", payload := Payload.obj 3 (some "x"), timestamp := 12
             messageId := none }] :=
  ⟨by decide, rfl,
   C10_generic_dispatch_exactly_once st0 "connection_ack" (Payload.obj 3 (some "x")) 12
     (some 99) (some "wid") (by decide) rfl⟩

end WS
